import Mathlib

/-!
Verification of the ts-nodify project generator (src/cli.js) against its
natural-language specification.  The CLI is shallowly embedded: every
generated-file template is a Lean `String` transcribed from the source,
the prompt questions and the run's filesystem effects are explicit data,
and JavaScript's `parseInt` is modelled for base 10.
-/

/- ====================  Port validation (src/cli.js lines 218-227)  ==================== -/

/-- Numeric value of a list of decimal digit characters, most significant first. -/
def digitsToNat (l : List Char) : Nat :=
  l.foldl (fun acc c => acc * 10 + (c.toNat - 48)) 0

/-- Model of JavaScript `parseInt(input, 10)`: skip leading whitespace, read an
optional sign, then the longest prefix of decimal digits; `none` stands for `NaN`
(no digit found). -/
def jsParseIntDec (s : String) : Option Int :=
  let l := s.data.dropWhile Char.isWhitespace
  let signAndRest : Int × List Char :=
    match l with
    | '-' :: t => (-1, t)
    | '+' :: t => (1, t)
    | _ => (1, l)
  let digits := signAndRest.2.takeWhile Char.isDigit
  if digits.isEmpty then none
  else some (signAndRest.1 * (digitsToNat digits : Int))

/-- The `validate` callback of the port prompt:
`!isNaN(parsed) && parsed > 0 && parsed < 65536`. -/
def validatePort (input : String) : Bool :=
  match jsParseIntDec input with
  | none => false
  | some parsed => decide (0 < parsed) && decide (parsed < 65536)

/- ====================  Prompt boundary (src/cli.js lines 176-241)  ==================== -/

/-- One interactive question: its answer name, its default, and its optional
validator (`none` when the source registers no `validate` callback). -/
structure PromptQuestion where
  name : String
  defaultValue : String
  validate : Option (String → Bool)

/-- The project-name question (src/cli.js lines 176-182): it carries a default
but no `validate` callback. -/
def projectNamePrompt : PromptQuestion :=
  { name := "projectName", defaultValue := "my-node-app", validate := none }

/-- The port question (src/cli.js lines 218-227). -/
def portPrompt : PromptQuestion :=
  { name := "port", defaultValue := "3000", validate := some validatePort }

/-- Boundary model of the interactive prompt collaborator: an empty input falls
back to the question's default value. -/
def promptValue (q : PromptQuestion) (input : String) : String :=
  if input == "" then q.defaultValue else input

/-- Boundary model of the interactive prompt collaborator: a question is
re-asked exactly when its validator rejects the (default-resolved) input;
a question without a validator never re-asks. -/
def promptReasks (q : PromptQuestion) (input : String) : Bool :=
  match q.validate with
  | none => false
  | some f => !(f (promptValue q input))

/- ====================  Logger templates (src/cli.js lines 116-170)  ==================== -/

/-- `LOGGER_TS_ESM` template string (after the source's `.trim()`). -/
def LOGGER_TS_ESM : String :=
  "import winston from 'winston';\n\nconst customFormat = winston.format.combine(\n  winston.format.colorize(),\n  winston.format.timestamp(\x7b format: 'YYYY-MM-DD HH:mm:ss' \x7d),\n  winston.format.printf((\x7b timestamp, level, message \x7d) => \x7b\n    return `$\x7btimestamp\x7d $\x7blevel\x7d: $\x7bmessage\x7d`;\n  \x7d)\n);\n\nconst logger = winston.createLogger(\x7b\n  level: 'info',\n  format: customFormat,\n  transports: [\n    new winston.transports.Console(),\n    new winston.transports.File(\x7b\n      filename: 'combined.log',\n      format: winston.format.json()\n    \x7d)\n  ]\n\x7d);\n\nexport default logger;"

/-- `const LOGGER_JS_ESM = LOGGER_TS_ESM;` (src/cli.js line 142). -/
def LOGGER_JS_ESM : String := LOGGER_TS_ESM

/-- `LOGGER_TS_CJS` template string (after the source's `.trim()`). -/
def LOGGER_TS_CJS : String :=
  "const winston = require('winston');\n\nconst customFormat = winston.format.combine(\n  winston.format.colorize(),\n  winston.format.timestamp(\x7b format: 'YYYY-MM-DD HH:mm:ss' \x7d),\n  winston.format.printf((\x7b timestamp, level, message \x7d) => \x7b\n    return `$\x7btimestamp\x7d $\x7blevel\x7d: $\x7bmessage\x7d`;\n  \x7d)\n);\n\nconst logger = winston.createLogger(\x7b\n  level: 'info',\n  format: customFormat,\n  transports: [\n    new winston.transports.Console(),\n    new winston.transports.File(\x7b\n      filename: 'combined.log',\n      format: winston.format.json()\n    \x7d)\n  ]\n\x7d);\n\nmodule.exports = logger;"

/-- `const LOGGER_JS_CJS = LOGGER_TS_CJS;` (src/cli.js line 170). -/
def LOGGER_JS_CJS : String := LOGGER_TS_CJS

/-- Logger body selection (src/cli.js lines 332-336). -/
def loggerContent (isTS isESM : Bool) : String :=
  if isTS && isESM then LOGGER_TS_ESM
  else if isTS && !isESM then LOGGER_TS_CJS
  else if !isTS && isESM then LOGGER_JS_ESM
  else LOGGER_JS_CJS

/-- Logger target path `path.join('src', 'utils', isTS ? 'logger.ts' : 'logger.js')`
(src/cli.js line 331). -/
def loggerPath (isTS : Bool) : String :=
  "src/utils/" ++ (if isTS then "logger.ts" else "logger.js")

/- ====================  Scaffold stub templates (src/cli.js lines 339-395)  ==================== -/

/-- `const ext = isTS ? 'ts' : 'js';` (src/cli.js line 340). -/
def ext (isTS : Bool) : String := if isTS then "ts" else "js"

/-- `const esmExt = isESM ? '.js' : '';` (src/cli.js line 341). -/
def esmExt (isESM : Bool) : String := if isESM then ".js" else ""

/-- Database stub body (src/cli.js lines 344-350). -/
def dbContent (isTS isESM : Bool) : String :=
  if isTS then
    "export async function connectToDatabase(): Promise<void> \x7b\n  console.log(\"📦 Connected to database\");\n\x7d"
  else if isESM then
    "export async function connectToDatabase() \x7b\n  console.log(\"📦 Connected to database\");\n\x7d"
  else
    "async function connectToDatabase() \x7b\n  console.log(\"📦 Connected to database\");\n\x7d\nmodule.exports = \x7b connectToDatabase \x7d;"

/-- Swagger stub body (src/cli.js lines 353-359). -/
def swaggerContent (isTS isESM : Bool) : String :=
  if isTS then
    "import swaggerUi from 'swagger-ui-express';\nimport \x7b Express \x7d from 'express';\n\nexport function setupSwagger(app: Express) \x7b\n  const swaggerSpec = \x7b openapi: '3.0.0', info: \x7b title: 'API Docs', version: '1.0.0' \x7d \x7d;\n  app.use('/docs', swaggerUi.serve, swaggerUi.setup(swaggerSpec));\n\x7d"
  else if isESM then
    "import swaggerUi from 'swagger-ui-express';\n\nexport function setupSwagger(app) \x7b\n  const swaggerSpec = \x7b openapi: '3.0.0', info: \x7b title: 'API Docs', version: '1.0.0' \x7d \x7d;\n  app.use('/docs', swaggerUi.serve, swaggerUi.setup(swaggerSpec));\n\x7d"
  else
    "const swaggerUi = require('swagger-ui-express');\nfunction setupSwagger(app) \x7b\n  const swaggerSpec = \x7b openapi: '3.0.0', info: \x7b title: 'API Docs', version: '1.0.0' \x7d \x7d;\n  app.use('/docs', swaggerUi.serve, swaggerUi.setup(swaggerSpec));\n\x7d\nmodule.exports = \x7b setupSwagger \x7d;"

/-- Transaction-id middleware body (src/cli.js lines 362-368). -/
def transactionIdContent (isTS isESM : Bool) : String :=
  if isTS then
    "import \x7b v4 as uuidv4 \x7d from 'uuid';\nimport \x7b Request, Response, NextFunction \x7d from 'express';\n\ndeclare global \x7b namespace Express \x7b interface Request \x7b transactionId?: string \x7d \x7d \x7d\n\nexport function transactionIdMiddleware(req: Request, _res: Response, next: NextFunction) \x7b\n  req.transactionId = uuidv4();\n  next();\n\x7d"
  else if isESM then
    "import \x7b v4 as uuidv4 \x7d from 'uuid';\n\nexport function transactionIdMiddleware(req, _res, next) \x7b\n  req.transactionId = uuidv4();\n  next();\n\x7d"
  else
    "const \x7b v4: uuidv4 \x7d = require('uuid');\nfunction transactionIdMiddleware(req, _res, next) \x7b\n  req.transactionId = uuidv4();\n  next();\n\x7d\nmodule.exports = \x7b transactionIdMiddleware \x7d;"

/-- Console-logger middleware body (src/cli.js lines 371-377). -/
def loggerConsoleContent (isTS isESM : Bool) : String :=
  if isTS then
    "import \x7b Request, Response, NextFunction \x7d from 'express';\nexport function loggerConsole(req: Request, _res: Response, next: NextFunction) \x7b\n  console.log(`[$\x7breq.method\x7d] $\x7breq.url\x7d - txId:$\x7breq.transactionId\x7d`);\n  next();\n\x7d"
  else if isESM then
    "export function loggerConsole(req, _res, next) \x7b\n  console.log(`[$\x7breq.method\x7d] $\x7breq.url\x7d - txId:$\x7breq.transactionId\x7d`);\n  next();\n\x7d"
  else
    "function loggerConsole(req, _res, next) \x7b\n  console.log(`[$\x7breq.method\x7d] $\x7breq.url\x7d - txId:$\x7breq.transactionId\x7d`);\n  next();\n\x7d\nmodule.exports = \x7b loggerConsole \x7d;"

/-- Error-handler middleware body (src/cli.js lines 380-386). -/
def errorHandlerContent (isTS isESM : Bool) : String :=
  if isTS then
    "import \x7b Request, Response, NextFunction \x7d from 'express';\n\nexport function errorHandler(err: Error, _req: Request, res: Response, _next: NextFunction) \x7b\n  console.error('❌ Error:', err.message);\n  res.status(500).json(\x7b error: err.message \x7d);\n\x7d"
  else if isESM then
    "export function errorHandler(err, _req, res, _next) \x7b\n  console.error('❌ Error:', err.message);\n  res.status(500).json(\x7b error: err.message \x7d);\n\x7d"
  else
    "function errorHandler(err, _req, res, _next) \x7b\n  console.error('❌ Error:', err.message);\n  res.status(500).json(\x7b error: err.message \x7d);\n\x7d\nmodule.exports = \x7b errorHandler \x7d;"

/-- Health-check route body (src/cli.js lines 389-395); the TS and JS-ESM
branches of the source are the same text. -/
def healthCheckRouteContent (isTS isESM : Bool) : String :=
  if isTS then
    "import \x7b Router \x7d from 'express';\n\nconst router = Router();\n\nrouter.get('/health', (req, res) => \x7b\n  res.json(\x7b status: 'ok', transactionId: req.transactionId \x7d);\n\x7d);\n\nexport default router;"
  else if isESM then
    "import \x7b Router \x7d from 'express';\n\nconst router = Router();\n\nrouter.get('/health', (req, res) => \x7b\n  res.json(\x7b status: 'ok', transactionId: req.transactionId \x7d);\n\x7d);\n\nexport default router;"
  else
    "const \x7b Router \x7d = require('express');\n\nconst router = Router();\n\nrouter.get('/health', (req, res) => \x7b\n  res.json(\x7b status: 'ok', transactionId: req.transactionId \x7d);\n\x7d);\n\nmodule.exports = router;"

/- ====================  App and server entries (src/cli.js lines 398-416)  ==================== -/

/-- App-entry body (src/cli.js lines 399-404); the TypeScript branch splices
`esmExt` into each relative import, the JS-ESM branch hardcodes `.js`, and the
JS-CJS branch emits extension-less `require` calls. -/
def appFileContent (isTS isESM : Bool) (e : String) : String :=
  if isTS then
    "import express from 'express';\nimport cors from 'cors';\nimport cookieParser from 'cookie-parser';\nimport \x7b transactionIdMiddleware \x7d from './middleware/transactionIdMiddleware" ++ e ++ "';\nimport \x7b loggerConsole \x7d from './middleware/loggerConsole" ++ e ++ "';\nimport \x7b errorHandler \x7d from './middleware/errorHandler" ++ e ++ "';\nimport \x7b setupSwagger \x7d from './config/swagger" ++ e ++ "';\nimport healthCheckRoute from './routes/healthCheckRoute" ++ e ++ "';\nimport \x7b env \x7d from 'process';\n\nconst app = express();\n\napp.use(cors());\napp.use(express.json());\napp.use(cookieParser());\napp.use(transactionIdMiddleware);\napp.use(loggerConsole);\n\nconst apiVersion = env.API_VERSION || 'v1';\napp.use(`/api/$\x7bapiVersion\x7d`, healthCheckRoute);\n\nsetupSwagger(app);\n\napp.use(errorHandler);\n\nexport default app;"
  else if isESM then
    "import express from 'express';\nimport cors from 'cors';\nimport cookieParser from 'cookie-parser';\nimport \x7b transactionIdMiddleware \x7d from './middleware/transactionIdMiddleware.js';\nimport \x7b loggerConsole \x7d from './middleware/loggerConsole.js';\nimport \x7b errorHandler \x7d from './middleware/errorHandler.js';\nimport \x7b setupSwagger \x7d from './config/swagger.js';\nimport healthCheckRoute from './routes/healthCheckRoute.js';\n\nconst app = express();\n\napp.use(cors());\napp.use(express.json());\napp.use(cookieParser());\napp.use(transactionIdMiddleware);\napp.use(loggerConsole);\n\nconst apiVersion = process.env.API_VERSION || 'v1';\napp.use(`/api/$\x7bapiVersion\x7d`, healthCheckRoute);\n\nsetupSwagger(app);\n\napp.use(errorHandler);\n\nexport default app;"
  else
    "const express = require('express');\nconst cors = require('cors');\nconst cookieParser = require('cookie-parser');\nconst \x7b transactionIdMiddleware \x7d = require('./middleware/transactionIdMiddleware');\nconst \x7b loggerConsole \x7d = require('./middleware/loggerConsole');\nconst \x7b errorHandler \x7d = require('./middleware/errorHandler');\nconst \x7b setupSwagger \x7d = require('./config/swagger');\nconst healthCheckRoute = require('./routes/healthCheckRoute');\n\nconst app = express();\n\napp.use(cors());\napp.use(express.json());\napp.use(cookieParser());\napp.use(transactionIdMiddleware);\napp.use(loggerConsole);\n\nconst apiVersion = process.env.API_VERSION || 'v1';\napp.use(`/api/$\x7bapiVersion\x7d`, healthCheckRoute);\n\nsetupSwagger(app);\n\napp.use(errorHandler);\n\nmodule.exports = app;"

/-- Server-entry text up to and including the `|| ` that precedes the spliced
port value (src/cli.js lines 410-415); this part holds every relative import of
the server entry. -/
def serverPre (isTS isESM : Bool) (e : String) : String :=
  if isTS then
    "import app from './app" ++ e ++ "';\nimport dotenv from 'dotenv';\nimport logger from './utils/logger" ++ e ++ "';\nimport \x7b connectToDatabase \x7d from './config/db" ++ e ++ "';\n\ndotenv.config();\n\nconst PORT: number = Number(process.env.PORT) || "
  else if isESM then
    "import dotenv from 'dotenv';\nimport app from './app.js';\nimport logger from './utils/logger.js';\nimport \x7b connectToDatabase \x7d from './config/db.js';\n\ndotenv.config();\n\nconst PORT = process.env.PORT || "
  else
    "const dotenv = require('dotenv');\nconst app = require('./app');\nconst logger = require('./utils/logger');\nconst \x7b connectToDatabase \x7d = require('./config/db');\n\ndotenv.config();\n\nconst PORT = process.env.PORT || "

/-- Server-entry text after the spliced port value (src/cli.js lines 410-415);
the only language dependence is the `(err as Error)` cast of the TS branch. -/
def serverPost (isTS : Bool) : String :=
  if isTS then
    ";\n\n(async () => \x7b\n  try \x7b\n    await connectToDatabase();\n    app.listen(PORT, () => logger.info(`🚀 Server running at http://localhost:$\x7bPORT\x7d`));\n  \x7d catch (err) \x7b\n    logger.error('❌ Failed to start server: ' + (err as Error).message);\n    process.exit(1);\n  \x7d\n\x7d)();"
  else
    ";\n\n(async () => \x7b\n  try \x7b\n    await connectToDatabase();\n    app.listen(PORT, () => logger.info(`🚀 Server running at http://localhost:$\x7bPORT\x7d`));\n  \x7d catch (err) \x7b\n    logger.error('❌ Failed to start server: ' + err.message);\n    process.exit(1);\n  \x7d\n\x7d)();"

/-- Server-entry body (src/cli.js lines 410-415): import section, then the raw
port splice `$\x7bport\x7d`, then the bootstrap tail. -/
def serverFileContent (isTS isESM : Bool) (e port : String) : String :=
  serverPre isTS isESM e ++ port ++ serverPost isTS

/- ====================  Import-suffix convention checker (claim C1)  ==================== -/

/-- Number of (possibly overlapping) occurrences of `pat` in `s`. -/
def countOccurs (pat : List Char) : List Char → Nat
  | [] => 0
  | c :: t => (if pat.isPrefixOf (c :: t) then 1 else 0) + countOccurs pat t

/-- Number of occurrences of the pattern string inside the subject string. -/
def strCount (s pat : String) : Nat := countOccurs pat.data s.data

/-- The relative module specifiers imported by the generated app entry. -/
def relImportPathsApp : List String :=
  ["./middleware/transactionIdMiddleware", "./middleware/loggerConsole",
   "./middleware/errorHandler", "./config/swagger", "./routes/healthCheckRoute"]

/-- The relative module specifiers imported by the generated server entry. -/
def relImportPathsServer : List String :=
  ["./app", "./utils/logger", "./config/db"]

/-- `usesSuffix c paths suffix` holds when every occurrence of each relative
specifier in `c` is immediately followed by `suffix` and a closing quote, and
each specifier does occur. -/
def usesSuffix (c : String) (paths : List String) (suffix : String) : Bool :=
  paths.all fun p =>
    (strCount c (p ++ suffix ++ "'") == strCount c p) && (strCount c p != 0)

/-- Decidable statement of the cross-renderer import-suffix invariant for one
language/module-system pair: the app entry and the import section of the server
entry suffix every relative import with `esmExt isESM`, the remainder of the
server entry holds no relative specifier, and no other generated source
artifact (config stubs, middleware, route, logger) holds any relative
specifier at all. -/
def importConventionOk (isTS isESM : Bool) : Bool :=
  usesSuffix (appFileContent isTS isESM (esmExt isESM)) relImportPathsApp (esmExt isESM) &&
  usesSuffix (serverPre isTS isESM (esmExt isESM)) relImportPathsServer (esmExt isESM) &&
  (strCount (serverPost isTS) "'./" == 0) &&
  (strCount (dbContent isTS isESM) "'./" == 0) &&
  (strCount (swaggerContent isTS isESM) "'./" == 0) &&
  (strCount (transactionIdContent isTS isESM) "'./" == 0) &&
  (strCount (loggerConsoleContent isTS isESM) "'./" == 0) &&
  (strCount (errorHandlerContent isTS isESM) "'./" == 0) &&
  (strCount (healthCheckRouteContent isTS isESM) "'./" == 0) &&
  (strCount (loggerContent isTS isESM) "'./" == 0)

/- ====================  package.json update (src/cli.js lines 314-328)  ==================== -/

/-- The fields of the generated package.json that the source touches; the
initial value stands for whatever `npm init -y` produced. -/
structure PkgJson where
  type : Option String
  scripts : List (String × String)
deriving BEq, Repr

/-- JavaScript property assignment on an object viewed as a key/value list:
overwrite in place if the key is present, append otherwise. -/
def setKey : List (String × String) → String → String → List (String × String)
  | [], k, v => [(k, v)]
  | (k', v') :: t, k, v => if k' == k then (k, v) :: t else (k', v') :: setKey t k v

/-- Property lookup on an object viewed as a key/value list. -/
def getKey : List (String × String) → String → Option String
  | [], _ => none
  | (k', v') :: t, k => if k' == k then some v' else getKey t k

/-- The package.json mutation (src/cli.js lines 317-327): set `type` to
"module" under ESM, then set `scripts.start` and `scripts.dev` by language. -/
def updatePkgJson (isTS isESM : Bool) (p : PkgJson) : PkgJson :=
  let p := if isESM then { p with type := some "module" } else p
  if isTS then
    let devCmd := if isESM then "node --loader ts-node/esm src/server.ts" else "ts-node src/server.ts"
    { p with scripts := setKey (setKey p.scripts "start" "node dist/server.js") "dev" devCmd }
  else
    { p with scripts := setKey (setKey p.scripts "start" "node src/server.js") "dev" "nodemon src/server.js" }

/- ====================  tsconfig (src/cli.js lines 285-300)  ==================== -/

/-- The compilerOptions object of the generated tsconfig.json. -/
structure CompilerOptions where
  target : String
  module : String
  moduleResolution : String
  outDir : String
  rootDir : String
  strict : Bool
  esModuleInterop : Bool
  forceConsistentCasingInFileNames : Bool
  allowSyntheticDefaultImports : Option Bool
deriving BEq, Repr

/-- The generated tsconfig.json object (src/cli.js lines 285-299); the
`allowSyntheticDefaultImports` key is spread in only under ESM. -/
structure TsConfigFile where
  compilerOptions : CompilerOptions
  includeGlobs : List String
  excludeGlobs : List String
deriving BEq, Repr

/-- tsconfig construction (src/cli.js lines 285-299). -/
def tsconfigFile (isESM : Bool) : TsConfigFile :=
  { compilerOptions :=
      { target := "ES2020"
        module := if isESM then "NodeNext" else "CommonJS"
        moduleResolution := if isESM then "NodeNext" else "Node"
        outDir := "dist"
        rootDir := "./src"
        strict := true
        esModuleInterop := true
        forceConsistentCasingInFileNames := true
        allowSyntheticDefaultImports := if isESM then some true else none }
    includeGlobs := ["src/**/*.ts"]
    excludeGlobs := ["node_modules"] }

/- ====================  Simple file contents (src/cli.js lines 312, 419-528)  ==================== -/

/-- `.env` file content (src/cli.js line 312): the raw port answer is spliced. -/
def envContent (port : String) : String :=
  "PORT=" ++ port ++ "\nDB_URI=\nAPI_VERSION=v1\n"

/-- Dockerfile content (src/cli.js lines 419-434): build step only under
TypeScript, raw port answer spliced into the EXPOSE line. -/
def dockerfileContent (isTS : Bool) (port : String) : String :=
  "# Dockerfile\nFROM node:20-alpine\n\nWORKDIR /app\n\nCOPY package*.json ./\nRUN npm install\n\nCOPY . .\n\n" ++
  (if isTS then "RUN npm run build" else "") ++
  "\n\nEXPOSE " ++ port ++ "\n\nCMD [\"npm\", \"start\"]\n"

/-- docker-compose.yml content (src/cli.js lines 436-451): the service key is
the literal `app`; the project name is spliced into `container_name` and the
raw port answer into the port mapping and the PORT environment entry. -/
def dockerComposeContent (projectName port : String) : String :=
  "version: \"3.8\"\n\nservices:\n  app:\n    build: .\n    container_name: " ++
  (projectName ++
   ("\n    ports:\n      - \"" ++
    (port ++
     (":" ++
      (port ++
       ("\"\n    environment:\n      - NODE_ENV=development\n      - PORT=" ++
        (port ++
         "\n    volumes:\n      - .:/app\n      - /app/node_modules\n    command: npm run dev\n")))))))

/-- Jenkinsfile content (src/cli.js lines 453-489): a Build stage only under
TypeScript, lower-cased project name in the docker build tag. -/
def jenkinsfileContent (isTS : Bool) (projectName : String) : String :=
  "pipeline \x7b\n  agent any\n\n  stages \x7b\n    stage('Checkout') \x7b\n      steps \x7b\n        checkout scm\n      \x7d\n    \x7d\n\n    stage('Install') \x7b\n      steps \x7b\n        sh 'npm install'\n      \x7d\n    \x7d\n\n    " ++
  (if isTS then "\n    stage('Build') \x7b\n      steps \x7b\n        sh 'npm run build'\n      \x7d\n    \x7d" else "") ++
  "\n\n    stage('Test') \x7b\n      steps \x7b\n        sh 'npm test || echo \"No tests configured\"'\n      \x7d\n    \x7d\n\n    stage('Docker Build & Push') \x7b\n      steps \x7b\n        sh 'docker build -t " ++
  projectName.toLower ++ ":latest .'\n      \x7d\n    \x7d\n  \x7d\n\x7d\n"

/-- GitHub Actions workflow content (src/cli.js lines 507-528): a build step
only under TypeScript. -/
def ciContent (isTS : Bool) : String :=
  "name: Node.js CI\n\non:\n  push:\n    branches: [ \"main\" ]\n  pull_request:\n    branches: [ \"main\" ]\n\njobs:\n  build:\n    runs-on: ubuntu-latest\n\n    steps:\n    - uses: actions/checkout@v3\n    - name: Use Node.js\n      uses: actions/setup-node@v3\n      with:\n        node-version: 20\n    - run: npm install\n    " ++
  (if isTS then "- run: npm run build" else "") ++
  "\n    - run: npm test\n"

/- ====================  Emission model (src/cli.js lines 249-532)  ==================== -/

/-- One observable effect of a generation run: a directory creation, an
external command invocation, or a file write (structured payloads for the two
JSON files whose serialization is done by the external JSON library). -/
inductive FsEffect where
  | mkdir (path : String)
  | exec (cmd : String)
  | write (path : String) (content : String)
  | writePkg (path : String) (p : PkgJson)
  | writeTs (path : String) (t : TsConfigFile)
deriving BEq, Repr

/-- The fixed folder list (src/cli.js lines 306-309). -/
def scaffoldFolders : List String :=
  ["src/controllers", "src/routes", "src/services", "src/models",
   "src/middleware", "src/utils", "src/types", "src/config"]

/-- The fixed (non-deployment) effect sequence of a confirmed generation run
(src/cli.js lines 272-416), from the root mkdir to the server-entry write;
`pkg0` is the package.json produced by `npm init -y`. -/
def scaffoldCoreEffects (name : String) (isTS isESM : Bool) (port : String)
    (packages : List String) (pkg0 : PkgJson) : List FsEffect :=
  [FsEffect.mkdir name,
   FsEffect.exec "npm init -y",
   FsEffect.exec ("npm install " ++ String.intercalate " " packages)] ++
  (if isTS then
    [FsEffect.exec "npm install --save-dev typescript ts-node ts-node-dev @types/node @types/express @types/cors @types/cookie-parser @types/morgan @types/bcrypt @types/swagger-ui-express @types/uuid",
     FsEffect.writeTs "tsconfig.json" (tsconfigFile isESM)]
   else [FsEffect.exec "npm install --save-dev nodemon"]) ++
  scaffoldFolders.map FsEffect.mkdir ++
  [FsEffect.write ".env" (envContent port),
   FsEffect.writePkg "package.json" (updatePkgJson isTS isESM pkg0),
   FsEffect.write (loggerPath isTS) (loggerContent isTS isESM),
   FsEffect.write ("src/config/db." ++ ext isTS) (dbContent isTS isESM),
   FsEffect.write ("src/config/swagger." ++ ext isTS) (swaggerContent isTS isESM),
   FsEffect.write ("src/middleware/transactionIdMiddleware." ++ ext isTS) (transactionIdContent isTS isESM),
   FsEffect.write ("src/middleware/loggerConsole." ++ ext isTS) (loggerConsoleContent isTS isESM),
   FsEffect.write ("src/middleware/errorHandler." ++ ext isTS) (errorHandlerContent isTS isESM),
   FsEffect.write ("src/routes/healthCheckRoute." ++ ext isTS) (healthCheckRouteContent isTS isESM),
   FsEffect.write ("src/app." ++ ext isTS) (appFileContent isTS isESM (esmExt isESM)),
   FsEffect.write ("src/server." ++ ext isTS) (serverFileContent isTS isESM (esmExt isESM) port)]

/-- The conditional deployment effects (src/cli.js lines 491-532), one guard
per selected helper, in source order. -/
def deployEffects (name : String) (isTS : Bool) (port : String)
    (helpers : List String) : List FsEffect :=
  (if helpers.contains "dockerfile" then
    [FsEffect.write "Dockerfile" (dockerfileContent isTS port)] else []) ++
  (if helpers.contains "compose" then
    [FsEffect.write "docker-compose.yml" (dockerComposeContent name port)] else []) ++
  (if helpers.contains "jenkins" then
    [FsEffect.write "Jenkinsfile" (jenkinsfileContent isTS name)] else []) ++
  (if helpers.contains "github" then
    [FsEffect.mkdir ".github/workflows",
     FsEffect.write ".github/workflows/ci.yml" (ciContent isTS)] else [])

/-- The full ordered effect sequence of a confirmed generation run
(src/cli.js lines 272-532): core artifacts, then deployment artifacts. -/
def scaffoldEffects (name : String) (isTS isESM : Bool) (port : String)
    (packages helpers : List String) (pkg0 : PkgJson) : List FsEffect :=
  scaffoldCoreEffects name isTS isESM port packages pkg0 ++
  deployEffects name isTS port helpers

/-- The target paths of the file-writing effects of a run, in order. -/
def writtenPaths (es : List FsEffect) : List String :=
  es.filterMap fun e =>
    match e with
    | FsEffect.write q _ => some q
    | FsEffect.writePkg q _ => some q
    | FsEffect.writeTs q _ => some q
    | _ => none

/-- Split a character list at every newline. -/
def splitOnNl : List Char → List (List Char)
  | [] => [[]]
  | c :: t =>
    match splitOnNl t with
    | [] => [[]]
    | h :: r => if c = '\n' then [] :: h :: r else (c :: h) :: r

/-- The lines of a string (newline-separated pieces). -/
def lineList (s : String) : List String :=
  (splitOnNl s.data).map fun l => String.mk l

/-- The collected prompt answers (src/cli.js lines 176-243). -/
structure Answers where
  projectName : String
  language : String
  moduleSystem : String
  packages : List String
  port : String
  deploymentHelpers : List String

/-- Outcome of one generation run: how many folder-conflict prompts were shown,
the explicit exit code if the run terminated early, and the ordered filesystem
effects performed. -/
structure RunResult where
  conflictPrompts : Nat
  exitCode : Option Nat
  effects : List FsEffect

/-- The main script (src/cli.js lines 243-532) after answer collection:
`fsExists` is the state of the filesystem at the single `fs.existsSync` check;
`action` answers the conflict prompt and `newNameAnswer` the rename prompt,
both consumed only when the original name exists. -/
def run (fsExists : String → Bool) (a : Answers) (action newNameAnswer : String)
    (pkg0 : PkgJson) : RunResult :=
  let isTS := a.language == "TypeScript"
  let isESM := a.moduleSystem.startsWith "ES Modules"
  if fsExists a.projectName then
    if action == "Cancel setup" then
      { conflictPrompts := 1, exitCode := some 1, effects := [] }
    else
      let name := if action == "Choose a different name" then newNameAnswer else a.projectName
      { conflictPrompts := 1, exitCode := none,
        effects := scaffoldEffects name isTS isESM a.port a.packages a.deploymentHelpers pkg0 }
  else
    { conflictPrompts := 0, exitCode := none,
      effects := scaffoldEffects a.projectName isTS isESM a.port a.packages a.deploymentHelpers pkg0 }

/- ====================  Rendered-value extraction (claims C3, C4)  ==================== -/

/-- Characters of a line: everything before the first occurrence of `stop`. -/
def takeUntil (stop : Char) : List Char → List Char
  | [] => []
  | c :: t => if c = stop then [] else c :: takeUntil stop t

/-- Prefix test that inspects the pattern first, so it reduces even when the
subject's tail is not yet known. -/
def isPre : List Char → List Char → Bool
  | [], _ => true
  | a :: as, l =>
    match l with
    | [] => false
    | b :: bs => a == b && isPre as bs

/-- Everything after the first occurrence of the marker `m`; empty when the
marker does not occur. -/
def afterMarker (m : List Char) : List Char → List Char
  | [] => []
  | c :: t => if isPre m (c :: t) then (c :: t).drop m.length else afterMarker m t

/-- The value rendered after `PORT=` on the first matching line of an
environment file. -/
def envPortValue (c : String) : String :=
  String.mk (takeUntil '\n' (afterMarker ("PORT=").data c.data))

/-- The value rendered after `EXPOSE ` in a Dockerfile. -/
def exposeValue (c : String) : String :=
  String.mk (takeUntil '\n' (afterMarker ("EXPOSE ").data c.data))

/-- The host half of the first quoted compose port mapping (the text between
`- "` and the `:`). -/
def composeMapValue (c : String) : String :=
  String.mk (takeUntil ':' (afterMarker ("- \"").data c.data))

/-- The value rendered after `- PORT=` in a compose environment block. -/
def composeEnvPortValue (c : String) : String :=
  String.mk (takeUntil '\n' (afterMarker ("- PORT=").data c.data))

/-- The service key declared on the first line under `services:` in a compose
descriptor (indentation stripped, colon dropped). -/
def composeServiceName (c : String) : String :=
  String.mk ((takeUntil ':' (afterMarker ("services:\n").data c.data)).dropWhile (fun ch => ch = ' '))

/-- The value rendered after `container_name: ` in a compose descriptor. -/
def composeContainerName (c : String) : String :=
  String.mk (takeUntil '\n' (afterMarker ("container_name: ").data c.data))

/-- A canonical decimal integer literal for a positive value: non-empty, all
digits, no leading zero. -/
def isDecimalNoLeadZeros (s : String) : Bool :=
  match s.data with
  | [] => false
  | c :: cs => (c :: cs).all Char.isDigit && c != '0'

/- ====================  Theorems for C5, C7, C9  ==================== -/

/-- C7: the port validation accepts exactly the inputs whose parsed integer
value lies strictly between 0 and 65536; in particular "1" and "65535" are
accepted while "0" and "65536" are rejected. -/
theorem port_validation_boundary :
    validatePort "1" = true ∧ validatePort "65535" = true ∧
    validatePort "0" = false ∧ validatePort "65536" = false ∧
    ∀ s : String, (validatePort s = true ↔
      ∃ v : Int, jsParseIntDec s = some v ∧ 0 < v ∧ v < 65536) := by
  refine ⟨by decide, by decide, by decide, by decide, ?_⟩
  intro s
  unfold validatePort
  cases h : jsParseIntDec s with
  | none => simp
  | some v => simp [h]

/-- C5 counterexample: the project-name question registers no validator, so an
empty project-name input is never rejected or re-asked (the claim says it is
rejected and the prompt re-asked). -/
theorem project_name_not_validated :
    projectNamePrompt.validate = none ∧
    promptReasks projectNamePrompt "" = false := by
  exact ⟨rfl, rfl⟩

/-- C5 amended: the project-name prompt performs no validation at all — no
input is ever re-asked; an empty input is replaced by the default
"my-node-app", so the name that reaches planning is non-empty, but
filesystem-safety is not checked (for example "../evil" is accepted verbatim). -/
theorem project_name_prompt_behaviour :
    ∀ input : String,
      promptReasks projectNamePrompt input = false ∧
      promptValue projectNamePrompt input ≠ "" ∧
      promptValue projectNamePrompt "" = "my-node-app" ∧
      promptValue projectNamePrompt "../evil" = "../evil" := by
  intro input
  refine ⟨rfl, ?_, rfl, rfl⟩
  unfold promptValue
  by_cases h : input == ""
  · simp [h, projectNamePrompt]
  · simp [h]
    simpa using h

/-- C9: the generated logger body depends only on the module system, never on
the language (the JS aliases are definitionally the TS bodies, mirroring
`const LOGGER_JS_ESM = LOGGER_TS_ESM` in the source); only the file extension
of the logger path depends on the language; and the two module-system bodies
really differ. -/
theorem logger_content_language_independent :
    (∀ isESM : Bool, loggerContent true isESM = loggerContent false isESM) ∧
    LOGGER_JS_ESM = LOGGER_TS_ESM ∧
    LOGGER_JS_CJS = LOGGER_TS_CJS ∧
    loggerPath true = "src/utils/logger.ts" ∧
    loggerPath false = "src/utils/logger.js" ∧
    LOGGER_TS_ESM ≠ LOGGER_TS_CJS := by
  refine ⟨?_, rfl, rfl, rfl, rfl, by decide⟩
  intro isESM
  cases isESM <;> rfl

set_option maxRecDepth 100000 in
/-- C1: for each of the four language/module-system combinations, every
intra-project relative import or require emitted into any generated source
artifact follows the single suffix convention of that run (".js" under ES
Modules, no extension under CommonJS), the app-entry and server-entry renderers
included. -/
theorem import_suffix_consistency :
    ∀ isTS isESM : Bool, importConventionOk isTS isESM = true := by
  decide


/- ====================  Theorems for C2, C6, C8, C10  ==================== -/

/-- Setting a property and reading it back yields the written value. -/
theorem getKey_setKey (s : List (String × String)) (k v : String) :
    getKey (setKey s k v) k = some v := by
  induction s with
  | nil => simp [setKey, getKey]
  | cons hd t ih =>
    obtain ⟨k', v'⟩ := hd
    by_cases h : k' == k
    · simp [setKey, getKey, h]
    · simp [setKey, getKey, h, ih]

/-- C2: for the configuration (name "demo-app", TypeScript, ES Modules, port
4000, deployment helpers = Dockerfile only), the generated package.json has
type "module" and scripts.dev "node --loader ts-node/esm src/server.ts", the
generated tsconfig has module "NodeNext", and exactly one Dockerfile is
emitted, containing the lines "RUN npm run build" and "EXPOSE 4000". -/
theorem demo_scenario_ts_esm (p : PkgJson) :
    (updatePkgJson true true p).type = some "module" ∧
    getKey (updatePkgJson true true p).scripts "dev"
      = some "node --loader ts-node/esm src/server.ts" ∧
    (tsconfigFile true).compilerOptions.module = "NodeNext" ∧
    (scaffoldEffects "demo-app" true true "4000" ["express", "dotenv"] ["dockerfile"] p).filter
        (fun e => match e with | FsEffect.write q _ => q == "Dockerfile" | _ => false)
      = [FsEffect.write "Dockerfile" (dockerfileContent true "4000")] ∧
    (scaffoldEffects "demo-app" true true "4000" ["express", "dotenv"] ["dockerfile"] p).filter
        (fun e => match e with | FsEffect.writeTs q _ => q == "tsconfig.json" | _ => false)
      = [FsEffect.writeTs "tsconfig.json" (tsconfigFile true)] ∧
    (lineList (dockerfileContent true "4000")).contains "RUN npm run build" = true ∧
    (lineList (dockerfileContent true "4000")).contains "EXPOSE 4000" = true := by
  refine ⟨rfl, ?_, rfl, rfl, rfl, by decide, by decide⟩
  exact getKey_setKey _ "dev" _

/-- C6: when the target directory already exists and the user answers the
conflict prompt with "Cancel setup", the run exits with status 1 and performs
no filesystem effect at all — no directory creation and no file write. -/
theorem abort_before_any_mutation (fsE : String → Bool) (a : Answers)
    (newName : String) (p : PkgJson) (h : fsE a.projectName = true) :
    (run fsE a "Cancel setup" newName p).exitCode = some 1 ∧
    (run fsE a "Cancel setup" newName p).effects = [] := by
  unfold run
  rw [h]
  simp

/-- Witness for C6 at a concrete filesystem state and answer set. -/
theorem abort_before_any_mutation_check :
    (run (fun _ => true)
        ⟨"demo-app", "TypeScript", "ES Modules (import/export)",
         ["express", "dotenv"], "4000", ["dockerfile"]⟩
        "Cancel setup" "x" ⟨none, []⟩).exitCode = some 1 ∧
    (run (fun _ => true)
        ⟨"demo-app", "TypeScript", "ES Modules (import/export)",
         ["express", "dotenv"], "4000", ["dockerfile"]⟩
        "Cancel setup" "x" ⟨none, []⟩).effects = [] :=
  abort_before_any_mutation (fun _ => true) _ "x" ⟨none, []⟩ rfl

/-- `writtenPaths` distributes over effect-list concatenation. -/
theorem writtenPaths_append (a b : List FsEffect) :
    writtenPaths (a ++ b) = writtenPaths a ++ writtenPaths b := by
  simp [writtenPaths, List.filterMap_append]

/-- The file paths written by the core effects, independent of every payload. -/
theorem writtenPaths_core (name : String) (isTS isESM : Bool) (port : String)
    (packages : List String) (p : PkgJson) :
    writtenPaths (scaffoldCoreEffects name isTS isESM port packages p) =
      (if isTS then ["tsconfig.json"] else []) ++
      [".env", "package.json", loggerPath isTS,
       "src/config/db." ++ ext isTS, "src/config/swagger." ++ ext isTS,
       "src/middleware/transactionIdMiddleware." ++ ext isTS,
       "src/middleware/loggerConsole." ++ ext isTS,
       "src/middleware/errorHandler." ++ ext isTS,
       "src/routes/healthCheckRoute." ++ ext isTS,
       "src/app." ++ ext isTS, "src/server." ++ ext isTS] := by
  cases isTS <;> rfl

/-- The file paths written by the deployment effects: one fixed path per
selected helper. -/
theorem writtenPaths_deploy (name : String) (isTS : Bool) (port : String)
    (helpers : List String) :
    writtenPaths (deployEffects name isTS port helpers) =
      (if helpers.contains "dockerfile" then ["Dockerfile"] else []) ++
      (if helpers.contains "compose" then ["docker-compose.yml"] else []) ++
      (if helpers.contains "jenkins" then ["Jenkinsfile"] else []) ++
      (if helpers.contains "github" then [".github/workflows/ci.yml"] else []) := by
  unfold deployEffects
  cases h1 : helpers.contains "dockerfile" <;>
  cases h2 : helpers.contains "compose" <;>
  cases h3 : helpers.contains "jenkins" <;>
  cases h4 : helpers.contains "github" <;> rfl

/-- C8: a deployment artifact is written exactly when its helper is selected
(Dockerfile for "dockerfile", compose file for "compose", Jenkinsfile for
"jenkins", CI workflow for "github"); with no helper selected the deployment
effect list is empty and the planned effects are exactly the core effects. -/
theorem deployment_artifact_iff_selected (name : String) (isTS isESM : Bool)
    (port : String) (packages helpers : List String) (p : PkgJson) :
    ("Dockerfile" ∈ writtenPaths (scaffoldEffects name isTS isESM port packages helpers p)
        ↔ helpers.contains "dockerfile" = true) ∧
    ("docker-compose.yml" ∈ writtenPaths (scaffoldEffects name isTS isESM port packages helpers p)
        ↔ helpers.contains "compose" = true) ∧
    ("Jenkinsfile" ∈ writtenPaths (scaffoldEffects name isTS isESM port packages helpers p)
        ↔ helpers.contains "jenkins" = true) ∧
    (".github/workflows/ci.yml" ∈ writtenPaths (scaffoldEffects name isTS isESM port packages helpers p)
        ↔ helpers.contains "github" = true) ∧
    deployEffects name isTS port [] = [] ∧
    scaffoldEffects name isTS isESM port packages [] p
      = scaffoldCoreEffects name isTS isESM port packages p := by
  have hsplit : writtenPaths (scaffoldEffects name isTS isESM port packages helpers p)
      = writtenPaths (scaffoldCoreEffects name isTS isESM port packages p)
        ++ writtenPaths (deployEffects name isTS port helpers) :=
    writtenPaths_append _ _
  refine ⟨?_, ?_, ?_, ?_, rfl, by simp [scaffoldEffects, deployEffects]⟩ <;>
  · rw [hsplit, writtenPaths_core, writtenPaths_deploy]
    cases isTS <;>
    cases h1 : helpers.contains "dockerfile" <;>
    cases h2 : helpers.contains "compose" <;>
    cases h3 : helpers.contains "jenkins" <;>
    cases h4 : helpers.contains "github" <;> decide

/-- C10: the directory-conflict check runs once, on the originally entered
name only: when the user resolves the conflict by choosing a different name,
generation proceeds into the replacement directory even if that directory
already exists, with no further conflict prompt. -/
theorem rename_skips_conflict_check (fsE : String → Bool) (a : Answers)
    (newName : String) (p : PkgJson)
    (h1 : fsE a.projectName = true) (h2 : fsE newName = true) :
    (run fsE a "Choose a different name" newName p).conflictPrompts = 1 ∧
    (run fsE a "Choose a different name" newName p).exitCode = none ∧
    (run fsE a "Choose a different name" newName p).effects.head?
      = some (FsEffect.mkdir newName) := by
  unfold run
  rw [h1]
  simp [scaffoldEffects, scaffoldCoreEffects]

/-- Witness for C10: both the original and the replacement directory exist,
and the run still proceeds into the replacement with a single prompt. -/
theorem rename_skips_conflict_check_witness :
    (run (fun _ => true)
        ⟨"demo-app", "TypeScript", "ES Modules (import/export)",
         ["express", "dotenv"], "4000", ["dockerfile"]⟩
        "Choose a different name" "demo-app-new" ⟨none, []⟩).conflictPrompts = 1 ∧
    (run (fun _ => true)
        ⟨"demo-app", "TypeScript", "ES Modules (import/export)",
         ["express", "dotenv"], "4000", ["dockerfile"]⟩
        "Choose a different name" "demo-app-new" ⟨none, []⟩).exitCode = none ∧
    (run (fun _ => true)
        ⟨"demo-app", "TypeScript", "ES Modules (import/export)",
         ["express", "dotenv"], "4000", ["dockerfile"]⟩
        "Choose a different name" "demo-app-new" ⟨none, []⟩).effects.head?
      = some (FsEffect.mkdir "demo-app-new") :=
  rename_skips_conflict_check (fun _ => true) _ "demo-app-new" ⟨none, []⟩ rfl rfl

/- ====================  Lemmas and theorems for C3, C4  ==================== -/

/-- A character with a property no digit has is not among all-digit characters. -/
theorem not_mem_of_all_digits (l : List Char) (h : l.all Char.isDigit = true)
    (c : Char) (hc : c.isDigit = false) : c ∉ l := by
  intro hm
  have := List.all_eq_true.mp h c hm
  rw [hc] at this
  exact Bool.false_ne_true this

/-- `takeUntil` recovers the spliced segment when the stop character does not
occur inside it and immediately follows it. -/
theorem takeUntil_append (stop : Char) (xs ys : List Char) (h : stop ∉ xs) :
    takeUntil stop (xs ++ stop :: ys) = xs := by
  induction xs with
  | nil => simp [takeUntil]
  | cons c t ih =>
    have hc : ¬(c = stop) := fun e => h (by simp [e])
    have ht : stop ∉ t := fun hm => h (by simp [hm])
    simp [takeUntil, hc, ih ht]

/-- A marker starting with a non-digit character cannot begin inside an
all-digit segment, so `afterMarker` skips the whole segment. -/
theorem afterMarker_skip_digits (c0 : Char) (m : List Char) (hc0 : c0.isDigit = false)
    (xs ys : List Char) (hxs : xs.all Char.isDigit = true) :
    afterMarker (c0 :: m) (xs ++ ys) = afterMarker (c0 :: m) ys := by
  induction xs with
  | nil => rfl
  | cons x t ih =>
    have hx : x.isDigit = true := by
      have := List.all_eq_true.mp hxs x (by simp)
      exact this
    have ht : t.all Char.isDigit = true := by
      rw [List.all_eq_true] at hxs ⊢
      intro a ha
      exact hxs a (by simp [ha])
    have hne : (c0 == x) = false := by
      rw [beq_eq_false_iff_ne]
      intro e
      rw [e, hx] at hc0
      exact Bool.false_ne_true hc0.symm
    simpa [afterMarker, isPre, hne] using ih ht

/-- C4 counterexample: for project name "demo-app" the generated compose
descriptor declares its service under the key "app", not under the project
name, so the claimed equality of service name and project name fails. -/
theorem compose_service_name_not_project_name :
    composeServiceName (dockerComposeContent "demo-app" "3000") = "app" ∧
    "app" ≠ "demo-app" := by
  exact ⟨by decide, by decide⟩

set_option maxHeartbeats 1000000 in
/-- C4 amended: the service key in the generated compose descriptor is the
fixed literal "app" for every configuration; it is the `container_name` entry,
not the service key, that equals the project name. -/
theorem compose_service_literal_container_named (name port : String)
    (h : '\n' ∉ name.data) :
    composeServiceName (dockerComposeContent name port) = "app" ∧
    composeContainerName (dockerComposeContent name port) = name := by
  refine ⟨rfl, ?_⟩
  have s1 : composeContainerName (dockerComposeContent name port)
      = String.mk (takeUntil '\n' (name.data ++ ('\n' ::
          ("    ports:\n      - \"" ++ (port ++ (":" ++ (port ++
           ("\"\n    environment:\n      - NODE_ENV=development\n      - PORT=" ++
            (port ++ "\n    volumes:\n      - .:/app\n      - /app/node_modules\n    command: npm run dev\n")))))).data))) := rfl
  rw [s1, takeUntil_append _ _ _ h]

/-- C4 witness: concrete name and port for the amended compose statement. -/
theorem compose_service_literal_container_named_witness :
    composeServiceName (dockerComposeContent "demo-app" "4000") = "app" ∧
    composeContainerName (dockerComposeContent "demo-app" "4000") = "demo-app" :=
  compose_service_literal_container_named "demo-app" "4000" (by decide)

/-- C3 counterexample: the input "007" passes the port validation (it parses
to 7), yet every artifact renders the raw input, so the .env PORT line and the
Dockerfile EXPOSE line carry the literal "007", which has a leading zero. -/
theorem port_leading_zero_rendered :
    validatePort "007" = true ∧
    envPortValue (envContent "007") = "007" ∧
    exposeValue (dockerfileContent true "007") = "007" ∧
    isDecimalNoLeadZeros "007" = false := by
  exact ⟨by decide, by decide, by decide, by decide⟩

set_option maxHeartbeats 1000000 in
/-- C3 amended: every artifact renders the accepted port input string
verbatim — so the rendered value is a decimal integer literal with no leading
zeros exactly when the input itself is one; here verbatim rendering is proved
for every accepted canonical-digit input, for the .env PORT line, the
Dockerfile EXPOSE line, and the compose port mapping and PORT entry. -/
theorem port_rendered_verbatim (p : String) (b : Bool)
    (hacc : validatePort p = true) (hcanon : isDecimalNoLeadZeros p = true) :
    envPortValue (envContent p) = p ∧
    exposeValue (dockerfileContent b p) = p ∧
    composeMapValue (dockerComposeContent "demo-app" p) = p ∧
    composeEnvPortValue (dockerComposeContent "demo-app" p) = p := by
  have hdig : p.data.all Char.isDigit = true := by
    have h1 := hcanon
    unfold isDecimalNoLeadZeros at h1
    cases hp : p.data with
    | nil => rw [hp] at h1; exact absurd h1 (by decide)
    | cons c cs =>
      rw [hp] at h1
      rw [Bool.and_eq_true] at h1
      exact h1.1
  have hnl : '\n' ∉ p.data := not_mem_of_all_digits _ hdig '\n' (by decide)
  have hcol : ':' ∉ p.data := not_mem_of_all_digits _ hdig ':' (by decide)
  refine ⟨?_, ?_, ?_, ?_⟩
  · have s1 : envPortValue (envContent p)
        = String.mk (takeUntil '\n' (p.data ++ ('\n' :: ("DB_URI=\nAPI_VERSION=v1\n").data))) := rfl
    rw [s1, takeUntil_append _ _ _ hnl]
  · cases b with
    | true =>
      have s1 : exposeValue (dockerfileContent true p)
          = String.mk (takeUntil '\n' (p.data ++ ('\n' :: ("\nCMD [\"npm\", \"start\"]\n").data))) := rfl
      rw [s1, takeUntil_append _ _ _ hnl]
    | false =>
      have s1 : exposeValue (dockerfileContent false p)
          = String.mk (takeUntil '\n' (p.data ++ ('\n' :: ("\nCMD [\"npm\", \"start\"]\n").data))) := rfl
      rw [s1, takeUntil_append _ _ _ hnl]
  · have s1 : composeMapValue (dockerComposeContent "demo-app" p)
        = String.mk (takeUntil ':' (p.data ++ (':' ::
            (p ++ ("\"\n    environment:\n      - NODE_ENV=development\n      - PORT=" ++
             (p ++ "\n    volumes:\n      - .:/app\n      - /app/node_modules\n    command: npm run dev\n"))).data))) := rfl
    rw [s1, takeUntil_append _ _ _ hcol]
  · have s1 : composeEnvPortValue (dockerComposeContent "demo-app" p)
        = String.mk (takeUntil '\n' (afterMarker ('-' :: (" PORT=").data)
            (p.data ++ (":" ++ (p ++ (("\"\n    environment:\n      - NODE_ENV=development\n      - PORT=" : String) ++
             (p ++ "\n    volumes:\n      - .:/app\n      - /app/node_modules\n    command: npm run dev\n")))).data))) := rfl
    have s2 := afterMarker_skip_digits '-' (" PORT=").data (by decide) p.data
      ((":" ++ (p ++ (("\"\n    environment:\n      - NODE_ENV=development\n      - PORT=" : String) ++
        (p ++ "\n    volumes:\n      - .:/app\n      - /app/node_modules\n    command: npm run dev\n")))).data) hdig
    have s3 : afterMarker ('-' :: (" PORT=").data)
          ((":" ++ (p ++ (("\"\n    environment:\n      - NODE_ENV=development\n      - PORT=" : String) ++
            (p ++ "\n    volumes:\n      - .:/app\n      - /app/node_modules\n    command: npm run dev\n")))).data)
        = afterMarker ('-' :: (" PORT=").data)
          (p.data ++ ((("\"\n    environment:\n      - NODE_ENV=development\n      - PORT=" : String) ++
            (p ++ "\n    volumes:\n      - .:/app\n      - /app/node_modules\n    command: npm run dev\n")).data)) := rfl
    have s4 := afterMarker_skip_digits '-' (" PORT=").data (by decide) p.data
      ((("\"\n    environment:\n      - NODE_ENV=development\n      - PORT=" : String) ++
        (p ++ "\n    volumes:\n      - .:/app\n      - /app/node_modules\n    command: npm run dev\n")).data) hdig
    have s5 : afterMarker ('-' :: (" PORT=").data)
          ((("\"\n    environment:\n      - NODE_ENV=development\n      - PORT=" : String) ++
            (p ++ "\n    volumes:\n      - .:/app\n      - /app/node_modules\n    command: npm run dev\n")).data)
        = p.data ++ ('\n' :: ("    volumes:\n      - .:/app\n      - /app/node_modules\n    command: npm run dev\n").data) := rfl
    rw [s1, s2, s3, s4, s5, takeUntil_append _ _ _ hnl]

/-- C3 witness: a concrete canonical accepted port for the verbatim-rendering
statement. -/
theorem port_rendered_verbatim_witness :
    envPortValue (envContent "4000") = "4000" ∧
    exposeValue (dockerfileContent true "4000") = "4000" ∧
    composeMapValue (dockerComposeContent "demo-app" "4000") = "4000" ∧
    composeEnvPortValue (dockerComposeContent "demo-app" "4000") = "4000" :=
  port_rendered_verbatim "4000" true (by decide) (by decide)
